import Mathlib

/-!
Verification of the git source-resolution fetcher in pkg/git/fetch.go.

The effectful Go function Fetcher.Fetch is embedded as an explicit
state-passing function.  External calls (keychain resolution, os.MkdirTemp,
gogit.PlainInit, CreateRemote, os.LookupEnv, url.Parse, remote.Fetch,
Worktree, ResolveRevision, Checkout, os.RemoveAll, os.Create, toml Encode)
are modelled by an oracle record FetchEnv giving each call its outcome; the
observable side effects (destination directory contents, the metadata file,
temporary directories, the process-global transport registry, and the log of
network fetch operations) live in a World record threaded through Fetch.
The filesystem snapshot operation copyDir/copyFile is embedded directly as
structural recursion over directory trees.
-/

namespace KpackGit

/-- A filesystem entry: a regular file or a directory, each with its
permission bits (fs.FileMode) and, for files, its content bytes. -/
inductive FSEntry where
  | file (mode : Nat) (content : List Nat)
  | dir (mode : Nat) (children : List (String × FSEntry))
deriving Repr

/-- Errors as pkg/errors builds them: transport.ErrAuthenticationRequired is
a distinguished sentinel value; `simple` is any other underlying error;
`wrap` is errors.Wrap / errors.Wrapf, attaching a context message. -/
inductive GoError where
  | errAuthenticationRequired
  | simple (msg : String)
  | wrap (context : String) (cause : GoError)
deriving Repr, DecidableEq

/-- A parsed URL, the result of url.Parse. -/
structure URL where
  raw : String
deriving Repr, DecidableEq

/-- Redirect behavior of an http.Client: the proxy client in fetch.go has a
CheckRedirect that always returns http.ErrUseLastResponse; the default
client follows redirects the standard way. -/
inductive RedirectPolicy where
  | useLastResponse
  | standard
deriving Repr, DecidableEq

/-- The observable configuration of the http.Client built in
getHttpsTransport: the proxy it routes through, its Timeout
(15 * time.Second), and its redirect policy. -/
structure HttpClient where
  proxyURL : URL
  timeoutSeconds : Nat
  redirect : RedirectPolicy
deriving Repr, DecidableEq

/-- A go-git transport: either githttp.NewClient(proxyClient) built from a
specific http.Client, or the library default githttp.DefaultClient. -/
inductive Transport where
  | httpClient (c : HttpClient)
  | defaultClient
deriving Repr, DecidableEq

/-- Authentication material resolved by the GitKeychain for a URL (nil
AuthMethod is modelled as anonymous). -/
inductive AuthMethod where
  | anonymous
  | basicAuth (username password : String)
deriving Repr, DecidableEq

/-- config.RemoteConfig as used in fetch.go: a remote name and its URLs. -/
structure RemoteConfig where
  name : String
  urls : List String
deriving Repr, DecidableEq

/-- gogit.FetchOptions as used in fetch.go: the refspecs requested and the
auth supplied. -/
structure FetchOptions where
  refSpecs : List String
  auth : AuthMethod
deriving Repr, DecidableEq

/-- toml struct metadata of fetch.go (fields Repository, Revision). -/
structure metadata where
  Repository : String
  Revision : String
deriving Repr, DecidableEq

/-- toml struct version of fetch.go (field Commit). -/
structure version where
  Commit : String
deriving Repr, DecidableEq

/-- toml struct source of fetch.go (fields Type, Metadata, Version; the Go
field Type is written lowercase here because Type is reserved in Lean). -/
structure source where
  type : String
  Metadata : metadata
  Version : version
deriving Repr, DecidableEq

/-- toml struct project of fetch.go (field Source). -/
structure project where
  Source : source
deriving Repr, DecidableEq

/-- The TOML document the BurntSushi encoder writes for a project value,
abstracted as the list of dotted-key/value pairs it records. -/
def encodeProject (p : project) : List (String × String) :=
  [("source.type", p.Source.type),
   ("source.metadata.repository", p.Source.Metadata.Repository),
   ("source.metadata.revision", p.Source.Metadata.Revision),
   ("source.version.commit", p.Source.Version.Commit)]

/-- copyFile(dstPath, srcPath): opens the source, creates the destination,
io.Copy copies the bytes, then os.Chmod sets the destination to the source
FileMode.  Denotationally, the destination entry as a function of the
source entry. -/
def copyFile : FSEntry → FSEntry
  | .file m c => .file m c
  | .dir m c => .dir m c

mutual

/-- copyDir(dstDir, srcDir): os.MkdirAll creates the destination with the
source directory mode, then every entry of the source is copied — a
directory by a recursive copyDir call, anything else by copyFile.  No entry
is skipped: there is no filter for the .git repository metadata.
Denotationally (destination starts absent, as it does in Fetch right after
os.RemoveAll), the resulting destination tree as a function of the source
tree. -/
def copyDir : FSEntry → FSEntry
  | .file m c => .file m c
  | .dir m children => .dir m (copyDirEntries children)

/-- The loop over getFileInfos(os.ReadDir(srcDir)) inside copyDir. -/
def copyDirEntries : List (String × FSEntry) → List (String × FSEntry)
  | [] => []
  | (n, .dir m c) :: rest => (n, copyDir (.dir m c)) :: copyDirEntries rest
  | (n, .file m c) :: rest => (n, copyFile (.file m c)) :: copyDirEntries rest

end

/-- Outcomes of the external calls made during one Fetcher.Fetch
invocation.  Each field is the result the corresponding library/OS call
would return in this run. -/
structure FetchEnv where
  /-- f.Keychain.Resolve(gitURL) -/
  resolveAuth : Except GoError AuthMethod
  /-- os.MkdirTemp("", "git-clone-"): the fresh directory name -/
  mkdirTemp : Except GoError String
  /-- gogit.PlainInit(tmpDir, false) failure, if any -/
  plainInitErr : Option GoError
  /-- repository.CreateRemote failure, if any -/
  createRemoteErr : Option GoError
  /-- os.LookupEnv("HTTPS_PROXY") -/
  httpsProxy : Option String
  /-- url.Parse -/
  parseUrl : String → Except GoError URL
  /-- remote.Fetch outcome (none = success) -/
  fetchErr : Option GoError
  /-- repository.Worktree() failure, if any -/
  worktreeErr : Option GoError
  /-- repository.ResolveRevision(gitRevision): the full commit hash -/
  resolveRevisionRes : Except GoError String
  /-- worktree.Checkout failure, if any -/
  checkoutErr : Option GoError
  /-- the .git directory PlainInit created and the fetch populated inside tmpDir -/
  gitDir : FSEntry
  /-- the working-tree entries Checkout materializes for a given commit hash -/
  worktreeAt : String → List (String × FSEntry)
  /-- os.RemoveAll(dir) failure, if any -/
  removeAllErr : Option GoError
  /-- failure injected into copyDir(dir, tmpDir), if any -/
  copyDirErr : Option GoError
  /-- destination contents left behind by a failed copyDir -/
  partialCopy : Option FSEntry
  /-- os.Create(metadataDir/project-metadata.toml) failure, if any -/
  createMetadataErr : Option GoError
  /-- toml.NewEncoder(...).Encode failure, if any -/
  encodeErr : Option GoError

/-- The observable state an invocation of Fetch can read or write. -/
structure World where
  /-- contents at the destination dir (none = the path does not exist) -/
  dest : Option FSEntry
  /-- contents of metadataDir/project-metadata.toml (none = no such file) -/
  metadataFile : Option (List (String × String))
  /-- temporary directories currently existing on disk -/
  tmpDirs : List String
  /-- remotes configured on the scratch repository -/
  scratchRemotes : List RemoteConfig
  /-- process-global protocol registry entry for https (client.InstallProtocol) -/
  installedHttps : Option Transport
  /-- log of network fetch operations actually performed -/
  fetchCalls : List FetchOptions
deriving Repr

/-- getHttpsTransport(): if HTTPS_PROXY is set, parse it (a parse failure is
wrapped as a parsing HTTPS_PROXY url error and no transport is returned);
otherwise build githttp.NewClient over an http.Client with Proxy =
http.ProxyURL(parsedUrl), Timeout = 15 * time.Second and a CheckRedirect
that always returns http.ErrUseLastResponse.  With no HTTPS_PROXY,
githttp.DefaultClient. -/
def getHttpsTransport (env : FetchEnv) : Except GoError Transport :=
  match env.httpsProxy with
  | some httpsProxy =>
    match env.parseUrl httpsProxy with
    | .error err => .error (.wrap "parsing HTTPS_PROXY url" err)
    | .ok parsedUrl =>
      .ok (.httpClient { proxyURL := parsedUrl, timeoutSeconds := 15,
                         redirect := .useLastResponse })
  | none => .ok .defaultClient

/-- Fetcher.Fetch(dir, gitURL, gitRevision, metadataDir), step for step:
resolve credentials; make a temp dir; PlainInit a non-bare repository there
(its .git directory lives inside tmpDir); create the sole remote origin
pointing at gitURL; build the https transport and install it process-wide;
fetch all refs with the single wildcard refspec written literally in the
definition, classifying ErrAuthenticationRequired separately; get the
worktree; resolve the revision to a hash; check out that hash; os.RemoveAll
the destination; copyDir the scratch directory (working tree next to .git,
MkdirTemp mode 0o700) into it; os.Create (create-or-truncate)
project-metadata.toml in metadataDir and TOML-encode the project record
into it.  The temp dir is never removed on any path.  Error messages from
the source are kept except that the single-quote characters around the
metadata path are omitted. -/
def Fetch (env : FetchEnv) (dir gitURL gitRevision metadataDir : String)
    (w : World) : Except GoError Unit × World :=
  match env.resolveAuth with
  | .error err => (.error err, w)
  | .ok auth =>
  match env.mkdirTemp with
  | .error err => (.error err, w)
  | .ok tmpDir =>
  let w1 : World := { w with tmpDirs := tmpDir :: w.tmpDirs }
  match env.plainInitErr with
  | some err => (.error (.wrap "initializing repo" err), w1)
  | none =>
  let w2 : World := { w1 with scratchRemotes := [] }
  match env.createRemoteErr with
  | some err => (.error (.wrap "creating remote" err), w2)
  | none =>
  let w3 : World :=
    { w2 with scratchRemotes :=
        w2.scratchRemotes ++ [{ name := "origin", urls := [gitURL] }] }
  match getHttpsTransport env with
  | .error err => (.error err, w3)
  | .ok httpsTransport =>
  let w4 : World := { w3 with installedHttps := some httpsTransport }
  let w5 : World :=
    { w4 with fetchCalls :=
        w4.fetchCalls ++ [{ refSpecs := ["refs/*:refs/*"], auth := auth }] }
  match env.fetchErr with
  | some err =>
    if err ≠ GoError.errAuthenticationRequired then
      (.error (.wrap "unable to fetch references for repository" err), w5)
    else
      (.error (.wrap "invalid credentials for repository" err), w5)
  | none =>
  match env.worktreeErr with
  | some err => (.error (.wrap "getting worktree for repository" err), w5)
  | none =>
  match env.resolveRevisionRes with
  | .error err => (.error (.wrap "resolving revision" err), w5)
  | .ok hash =>
  match env.checkoutErr with
  | some err => (.error (.wrap "checking out revision" err), w5)
  | none =>
  let tmpTree : FSEntry := .dir 448 ((".git", env.gitDir) :: env.worktreeAt hash)
  match env.removeAllErr with
  | some err => (.error (.wrap "removing directory" err), w5)
  | none =>
  let w6 : World := { w5 with dest := none }
  match env.copyDirErr with
  | some err =>
    (.error (.wrap "copying directory" err), { w6 with dest := env.partialCopy })
  | none =>
  let w7 : World := { w6 with dest := some (copyDir tmpTree) }
  match env.createMetadataErr with
  | some err =>
    (.error (.wrap ("invalid metadata destination " ++ metadataDir ++
      "/project-metadata.toml for git repository: " ++ gitURL) err), w7)
  | none =>
  let w8 : World := { w7 with metadataFile := some [] }
  let projectMd : project :=
    { Source := { type := "git",
                  Metadata := { Repository := gitURL, Revision := gitRevision },
                  Version := { Commit := hash } } }
  match env.encodeErr with
  | some err =>
    (.error (.wrap ("invalid metadata destination " ++ metadataDir ++
      "/project-metadata.toml for git repository: " ++ gitRevision) err), w8)
  | none =>
  let written : List (String × String) :=
    (w8.metadataFile.getD []) ++ encodeProject projectMd
  let w9 : World := { w8 with metadataFile := some written }
  (.ok (), w9)

/-- Whether a fetch result is an error. -/
def isErr : Except GoError Unit → Bool
  | .error _ => true
  | .ok _ => false

/-- Whether the destination tree has a top-level child named .git. -/
def destHasGit (w : World) : Bool :=
  match w.dest with
  | some (.dir _ children) => children.any (fun p => p.1 == ".git")
  | _ => false

/-- Whether an Except result is a success. -/
def isOk {α : Type} : Except GoError α → Bool
  | .ok _ => true
  | .error _ => false

/-- A sample working tree checked out for any commit hash. -/
def sampleWorktree : List (String × FSEntry) :=
  [("README.md", FSEntry.file 420 [104, 105]),
   ("src", FSEntry.dir 493 [("main.go", FSEntry.file 420 [112])])]

/-- A sample .git directory of the scratch clone. -/
def sampleGitDir : FSEntry :=
  FSEntry.dir 448 [("HEAD", FSEntry.file 420 [114]),
                   ("objects", FSEntry.dir 448 [])]

/-- An oracle in which every external call succeeds and no proxy is set. -/
def envOk : FetchEnv :=
  { resolveAuth := .ok .anonymous,
    mkdirTemp := .ok "/tmp/git-clone-123",
    plainInitErr := none,
    createRemoteErr := none,
    httpsProxy := none,
    parseUrl := fun s => .ok { raw := s },
    fetchErr := none,
    worktreeErr := none,
    resolveRevisionRes := .ok "a94a8fe5ccb19ba61c4c0873d391e987982fbbd3",
    checkoutErr := none,
    gitDir := sampleGitDir,
    worktreeAt := fun _ => sampleWorktree,
    removeAllErr := none,
    copyDirErr := none,
    partialCopy := none,
    createMetadataErr := none,
    encodeErr := none }

/-- The oracle with a DNS-style failure at the fetch step. -/
def envFetchDNS : FetchEnv :=
  { envOk with fetchErr := some (.simple "no such host") }

/-- The oracle with transport.ErrAuthenticationRequired at the fetch step. -/
def envFetchAuth : FetchEnv :=
  { envOk with fetchErr := some .errAuthenticationRequired }

/-- The oracle with HTTPS_PROXY set to a value url.Parse rejects. -/
def envBadProxy : FetchEnv :=
  { envOk with httpsProxy := some "not a url",
               parseUrl := fun s => .error (.simple ("parse " ++ s)) }

/-- The oracle with HTTPS_PROXY set to a well-formed address. -/
def envProxy : FetchEnv :=
  { envOk with httpsProxy := some "http://proxy.example:3128" }

/-- The oracle failing at os.Create of the metadata file. -/
def envMetaCreateFail : FetchEnv :=
  { envOk with createMetadataErr := some (.simple "no such directory") }

/-- A pre-existing destination tree, distinct from any scratch tree. -/
def oldTree : FSEntry :=
  FSEntry.dir 493 [("old.txt", FSEntry.file 420 [111])]

/-- A world with nothing on disk yet. -/
def worldEmpty : World :=
  { dest := none, metadataFile := none, tmpDirs := [], scratchRemotes := [],
    installedHttps := none, fetchCalls := [] }

/-- A world with pre-existing destination contents and a stale metadata
file left by an earlier run. -/
def worldPrior : World :=
  { dest := some oldTree,
    metadataFile := some [("source.type", "blob")],
    tmpDirs := [], scratchRemotes := [], installedHttps := none,
    fetchCalls := [] }

mutual

/-- copyDir reproduces its source tree exactly: every entry, file content
and permission bit, with nothing excluded. -/
theorem copyDir_id : (e : FSEntry) → copyDir e = e
  | .file m c => by simp [copyDir]
  | .dir m children => by simp [copyDir, copyDirEntries_id children]

/-- The entry loop of copyDir reproduces every child unchanged. -/
theorem copyDirEntries_id : (l : List (String × FSEntry)) → copyDirEntries l = l
  | [] => by simp [copyDirEntries]
  | (n, .dir m c) :: rest => by
      simp [copyDirEntries, copyDir_id (.dir m c), copyDirEntries_id rest]
  | (n, .file m c) :: rest => by
      simp [copyDirEntries, copyFile, copyDirEntries_id rest]

end

/-- C1: if credential resolution, temp-dir creation, repository init,
remote creation, transport construction, the fetch, revision resolution or
the checkout fails, Fetch returns an error and the destination contents
are exactly what they were before the call — the destination is not
touched before all those stages succeed. -/
theorem C1_pre_materialization_failure_leaves_dest
    (env : FetchEnv) (dir gitURL gitRevision metadataDir : String) (w : World)
    (h : isOk env.resolveAuth = false ∨ isOk env.mkdirTemp = false ∨
         env.plainInitErr.isSome ∨ env.createRemoteErr.isSome ∨
         isOk (getHttpsTransport env) = false ∨ env.fetchErr.isSome ∨
         isOk env.resolveRevisionRes = false ∨ env.checkoutErr.isSome) :
    isErr (Fetch env dir gitURL gitRevision metadataDir w).1 = true ∧
    (Fetch env dir gitURL gitRevision metadataDir w).2.dest = w.dest := by
  cases hA : env.resolveAuth with
  | error e => simp [Fetch, hA, isErr]
  | ok auth =>
  cases hB : env.mkdirTemp with
  | error e => simp [Fetch, hA, hB, isErr]
  | ok tmpDir =>
  cases hC : env.plainInitErr with
  | some e => simp [Fetch, hA, hB, hC, isErr]
  | none =>
  cases hD : env.createRemoteErr with
  | some e => simp [Fetch, hA, hB, hC, hD, isErr]
  | none =>
  cases hE : getHttpsTransport env with
  | error e => simp [Fetch, hA, hB, hC, hD, hE, isErr]
  | ok tr =>
  cases hF : env.fetchErr with
  | some e =>
    by_cases he : e = GoError.errAuthenticationRequired
    · simp [Fetch, hA, hB, hC, hD, hE, hF, he, isErr]
    · simp [Fetch, hA, hB, hC, hD, hE, hF, he, isErr]
  | none =>
  cases hG : env.worktreeErr with
  | some e => simp [Fetch, hA, hB, hC, hD, hE, hF, hG, isErr]
  | none =>
  cases hH : env.resolveRevisionRes with
  | error e => simp [Fetch, hA, hB, hC, hD, hE, hF, hG, hH, isErr]
  | ok hash =>
  cases hI : env.checkoutErr with
  | some e => simp [Fetch, hA, hB, hC, hD, hE, hF, hG, hH, hI, isErr]
  | none =>
  simp [isOk, hA, hB, hC, hD, hE, hF, hH, hI] at h

/-- C1 witness: a fetch-step DNS failure on a world with pre-existing
destination contents errors out and leaves those contents unchanged. -/
theorem C1_witness :
    (envFetchDNS.fetchErr.isSome ∧
     isErr (Fetch envFetchDNS "ws" "https://example.com/r.git" "main" "md" worldPrior).1 = true ∧
     (Fetch envFetchDNS "ws" "https://example.com/r.git" "main" "md" worldPrior).2.dest = worldPrior.dest) :=
  ⟨by decide,
   C1_pre_materialization_failure_leaves_dest envFetchDNS "ws"
     "https://example.com/r.git" "main" "md" worldPrior
     (Or.inr (Or.inr (Or.inr (Or.inr (Or.inr (Or.inl (by decide)))))))⟩

/-- C2 counterexample: a fully successful Fetch over a pre-existing
workspace succeeds, yet the destination ends up with a top-level .git
child — copyDir copies the repository metadata directory, contradicting
the claim that none is copied. -/
theorem C2_counterexample :
    (Fetch envOk "ws" "https://example.com/r.git" "main" "md" worldPrior).1 = .ok () ∧
    destHasGit (Fetch envOk "ws" "https://example.com/r.git" "main" "md" worldPrior).2 = true :=
  ⟨rfl, rfl⟩

/-- C2 (amended): after a successful Fetch the destination holds exactly
the scratch directory tree at the resolved commit — every file, directory
and permission bit — including the .git repository metadata directory,
because copyDir performs no exclusion. -/
theorem C2_success_dest_equals_scratch_tree
    (env : FetchEnv) (dir gitURL gitRevision metadataDir : String) (w : World)
    (auth : AuthMethod) (tmpDir : String) (tr : Transport) (hash : String)
    (hA : env.resolveAuth = .ok auth) (hB : env.mkdirTemp = .ok tmpDir)
    (hC : env.plainInitErr = none) (hD : env.createRemoteErr = none)
    (hE : getHttpsTransport env = .ok tr) (hF : env.fetchErr = none)
    (hG : env.worktreeErr = none) (hH : env.resolveRevisionRes = .ok hash)
    (hI : env.checkoutErr = none) (hJ : env.removeAllErr = none)
    (hK : env.copyDirErr = none) (hL : env.createMetadataErr = none)
    (hM : env.encodeErr = none) :
    (Fetch env dir gitURL gitRevision metadataDir w).1 = .ok () ∧
    (Fetch env dir gitURL gitRevision metadataDir w).2.dest =
      some (FSEntry.dir 448 ((".git", env.gitDir) :: env.worktreeAt hash)) := by
  simp [Fetch, hA, hB, hC, hD, hE, hF, hG, hH, hI, hJ, hK, hL, hM, copyDir_id]

/-- C2 witness: the amended statement instantiated at the all-success
oracle over a pre-existing workspace. -/
theorem C2_witness :
    (Fetch envOk "ws" "https://example.com/r.git" "main" "md" worldPrior).1 = .ok () ∧
    (Fetch envOk "ws" "https://example.com/r.git" "main" "md" worldPrior).2.dest =
      some (FSEntry.dir 448 ((".git", envOk.gitDir) ::
        envOk.worktreeAt "a94a8fe5ccb19ba61c4c0873d391e987982fbbd3")) :=
  C2_success_dest_equals_scratch_tree envOk "ws" "https://example.com/r.git"
    "main" "md" worldPrior .anonymous "/tmp/git-clone-123" .defaultClient
    "a94a8fe5ccb19ba61c4c0873d391e987982fbbd3"
    rfl rfl rfl rfl rfl rfl rfl rfl rfl rfl rfl rfl rfl

/-- C3: after a successful Fetch, project-metadata.toml in metadataDir
records source.type git, the repository URL, the requested revision, and
source.version.commit equal to the resolved hash — the same hash whose
checked-out tree now sits in the destination. -/
theorem C3_metadata_records_resolved_commit
    (env : FetchEnv) (dir gitURL gitRevision metadataDir : String) (w : World)
    (auth : AuthMethod) (tmpDir : String) (tr : Transport) (hash : String)
    (hA : env.resolveAuth = .ok auth) (hB : env.mkdirTemp = .ok tmpDir)
    (hC : env.plainInitErr = none) (hD : env.createRemoteErr = none)
    (hE : getHttpsTransport env = .ok tr) (hF : env.fetchErr = none)
    (hG : env.worktreeErr = none) (hH : env.resolveRevisionRes = .ok hash)
    (hI : env.checkoutErr = none) (hJ : env.removeAllErr = none)
    (hK : env.copyDirErr = none) (hL : env.createMetadataErr = none)
    (hM : env.encodeErr = none) :
    (Fetch env dir gitURL gitRevision metadataDir w).1 = .ok () ∧
    (Fetch env dir gitURL gitRevision metadataDir w).2.metadataFile =
      some [("source.type", "git"),
            ("source.metadata.repository", gitURL),
            ("source.metadata.revision", gitRevision),
            ("source.version.commit", hash)] ∧
    (Fetch env dir gitURL gitRevision metadataDir w).2.dest =
      some (FSEntry.dir 448 ((".git", env.gitDir) :: env.worktreeAt hash)) := by
  simp [Fetch, hA, hB, hC, hD, hE, hF, hG, hH, hI, hJ, hK, hL, hM,
        copyDir_id, encodeProject]

/-- C3 witness: the metadata/commit agreement at the all-success oracle. -/
theorem C3_witness :
    (Fetch envOk "ws" "https://example.com/r.git" "main" "md" worldPrior).1 = .ok () ∧
    (Fetch envOk "ws" "https://example.com/r.git" "main" "md" worldPrior).2.metadataFile =
      some [("source.type", "git"),
            ("source.metadata.repository", "https://example.com/r.git"),
            ("source.metadata.revision", "main"),
            ("source.version.commit", "a94a8fe5ccb19ba61c4c0873d391e987982fbbd3")] ∧
    (Fetch envOk "ws" "https://example.com/r.git" "main" "md" worldPrior).2.dest =
      some (FSEntry.dir 448 ((".git", envOk.gitDir) ::
        envOk.worktreeAt "a94a8fe5ccb19ba61c4c0873d391e987982fbbd3")) :=
  C3_metadata_records_resolved_commit envOk "ws" "https://example.com/r.git"
    "main" "md" worldPrior .anonymous "/tmp/git-clone-123" .defaultClient
    "a94a8fe5ccb19ba61c4c0873d391e987982fbbd3"
    rfl rfl rfl rfl rfl rfl rfl rfl rfl rfl rfl rfl rfl

/-- C4: a fetch failing with transport.ErrAuthenticationRequired is
wrapped as invalid credentials for repository, while any other fetch
failure is wrapped as unable to fetch references for repository — the two
are never conflated. -/
theorem C4_fetch_error_classification
    (env : FetchEnv) (dir gitURL gitRevision metadataDir : String) (w : World)
    (auth : AuthMethod) (tmpDir : String) (tr : Transport)
    (hA : env.resolveAuth = .ok auth) (hB : env.mkdirTemp = .ok tmpDir)
    (hC : env.plainInitErr = none) (hD : env.createRemoteErr = none)
    (hE : getHttpsTransport env = .ok tr) :
    ∀ e, env.fetchErr = some e →
      (e = GoError.errAuthenticationRequired →
        (Fetch env dir gitURL gitRevision metadataDir w).1 =
          .error (.wrap "invalid credentials for repository" e)) ∧
      (e ≠ GoError.errAuthenticationRequired →
        (Fetch env dir gitURL gitRevision metadataDir w).1 =
          .error (.wrap "unable to fetch references for repository" e)) := by
  intro e hF
  constructor
  · intro he
    simp [Fetch, hA, hB, hC, hD, hE, hF, he]
  · intro he
    simp [Fetch, hA, hB, hC, hD, hE, hF, he]

/-- C4 witness: the classification at one auth-required oracle and one
DNS-failure oracle. -/
theorem C4_witness :
    (Fetch envFetchAuth "ws" "https://example.com/r.git" "main" "md" worldEmpty).1 =
      .error (.wrap "invalid credentials for repository" .errAuthenticationRequired) ∧
    (Fetch envFetchDNS "ws" "https://example.com/r.git" "main" "md" worldEmpty).1 =
      .error (.wrap "unable to fetch references for repository" (.simple "no such host")) :=
  ⟨(C4_fetch_error_classification envFetchAuth "ws" "https://example.com/r.git"
      "main" "md" worldEmpty .anonymous "/tmp/git-clone-123" .defaultClient
      rfl rfl rfl rfl rfl GoError.errAuthenticationRequired rfl).1 rfl,
   (C4_fetch_error_classification envFetchDNS "ws" "https://example.com/r.git"
      "main" "md" worldEmpty .anonymous "/tmp/git-clone-123" .defaultClient
      rfl rfl rfl rfl rfl (GoError.simple "no such host") rfl).2 (by decide)⟩

/-- C5: with HTTPS_PROXY set to an address url.Parse rejects, transport
construction fails right away with the parse error wrapped and returns no
transport, Fetch returns an error, and no network fetch is ever
performed. -/
theorem C5_malformed_proxy_fails_before_fetch
    (env : FetchEnv) (dir gitURL gitRevision metadataDir : String) (w : World)
    (p : String) (e : GoError)
    (hp : env.httpsProxy = some p) (hparse : env.parseUrl p = .error e) :
    getHttpsTransport env = .error (.wrap "parsing HTTPS_PROXY url" e) ∧
    isErr (Fetch env dir gitURL gitRevision metadataDir w).1 = true ∧
    (Fetch env dir gitURL gitRevision metadataDir w).2.fetchCalls = w.fetchCalls := by
  have ht : getHttpsTransport env = .error (.wrap "parsing HTTPS_PROXY url" e) := by
    simp [getHttpsTransport, hp, hparse]
  refine ⟨ht, ?_⟩
  cases hA : env.resolveAuth with
  | error e2 => simp [Fetch, hA, isErr]
  | ok auth =>
  cases hB : env.mkdirTemp with
  | error e2 => simp [Fetch, hA, hB, isErr]
  | ok tmpDir =>
  cases hC : env.plainInitErr with
  | some e2 => simp [Fetch, hA, hB, hC, isErr]
  | none =>
  cases hD : env.createRemoteErr with
  | some e2 => simp [Fetch, hA, hB, hC, hD, isErr]
  | none => simp [Fetch, hA, hB, hC, hD, ht, isErr]

/-- C5 witness: the fail-fast at an oracle whose HTTPS_PROXY value the
parser rejects, over an empty world (zero prior network calls). -/
theorem C5_witness :
    getHttpsTransport envBadProxy =
      .error (.wrap "parsing HTTPS_PROXY url" (.simple "parse not a url")) ∧
    isErr (Fetch envBadProxy "ws" "https://example.com/r.git" "main" "md" worldEmpty).1 = true ∧
    (Fetch envBadProxy "ws" "https://example.com/r.git" "main" "md" worldEmpty).2.fetchCalls =
      worldEmpty.fetchCalls :=
  C5_malformed_proxy_fails_before_fetch envBadProxy "ws"
    "https://example.com/r.git" "main" "md" worldEmpty "not a url"
    (.simple "parse not a url") rfl rfl

/-- C6: with HTTPS_PROXY set to an address the parser accepts, the
transport is the client built over that proxy with a 15 second timeout and
a use-last-response redirect policy; with HTTPS_PROXY absent it is the
library default client. -/
theorem C6_transport_configuration (env : FetchEnv) :
    (∀ p u, env.httpsProxy = some p → env.parseUrl p = .ok u →
      getHttpsTransport env =
        .ok (.httpClient { proxyURL := u, timeoutSeconds := 15,
                           redirect := .useLastResponse })) ∧
    (env.httpsProxy = none → getHttpsTransport env = .ok .defaultClient) := by
  constructor
  · intro p u hp hu
    simp [getHttpsTransport, hp, hu]
  · intro hp
    simp [getHttpsTransport, hp]

/-- C6 witness: both branches at concrete oracles. -/
theorem C6_witness :
    getHttpsTransport envProxy =
      .ok (.httpClient { proxyURL := { raw := "http://proxy.example:3128" },
                         timeoutSeconds := 15, redirect := .useLastResponse }) ∧
    getHttpsTransport envOk = .ok .defaultClient :=
  ⟨(C6_transport_configuration envProxy).1 "http://proxy.example:3128"
      { raw := "http://proxy.example:3128" } rfl rfl,
   (C6_transport_configuration envOk).2 rfl⟩

/-- C7: once the fetch step is reached, the freshly initialized scratch
repository has exactly one remote, named origin with the target URL as its
only URL, and the network fetch performed requests the single wildcard
refspec for all refs with the resolved credential. -/
theorem C7_fetch_all_refs_from_sole_origin_remote
    (env : FetchEnv) (dir gitURL gitRevision metadataDir : String) (w : World)
    (auth : AuthMethod) (tmpDir : String) (tr : Transport)
    (hA : env.resolveAuth = .ok auth) (hB : env.mkdirTemp = .ok tmpDir)
    (hC : env.plainInitErr = none) (hD : env.createRemoteErr = none)
    (hE : getHttpsTransport env = .ok tr) :
    (Fetch env dir gitURL gitRevision metadataDir w).2.scratchRemotes =
      [{ name := "origin", urls := [gitURL] }] ∧
    (Fetch env dir gitURL gitRevision metadataDir w).2.fetchCalls =
      w.fetchCalls ++ [{ refSpecs := ["refs/*:refs/*"], auth := auth }] := by
  cases hF : env.fetchErr with
  | some e =>
    by_cases he : e = GoError.errAuthenticationRequired
    · simp [Fetch, hA, hB, hC, hD, hE, hF, he]
    · simp [Fetch, hA, hB, hC, hD, hE, hF, he]
  | none =>
  cases hG : env.worktreeErr with
  | some e => simp [Fetch, hA, hB, hC, hD, hE, hF, hG]
  | none =>
  cases hH : env.resolveRevisionRes with
  | error e => simp [Fetch, hA, hB, hC, hD, hE, hF, hG, hH]
  | ok hash =>
  cases hI : env.checkoutErr with
  | some e => simp [Fetch, hA, hB, hC, hD, hE, hF, hG, hH, hI]
  | none =>
  cases hJ : env.removeAllErr with
  | some e => simp [Fetch, hA, hB, hC, hD, hE, hF, hG, hH, hI, hJ]
  | none =>
  cases hK : env.copyDirErr with
  | some e => simp [Fetch, hA, hB, hC, hD, hE, hF, hG, hH, hI, hJ, hK]
  | none =>
  cases hL : env.createMetadataErr with
  | some e => simp [Fetch, hA, hB, hC, hD, hE, hF, hG, hH, hI, hJ, hK, hL]
  | none =>
  cases hM : env.encodeErr with
  | some e => simp [Fetch, hA, hB, hC, hD, hE, hF, hG, hH, hI, hJ, hK, hL, hM]
  | none => simp [Fetch, hA, hB, hC, hD, hE, hF, hG, hH, hI, hJ, hK, hL, hM]

/-- C7 witness: the remote and refspec at the all-success oracle. -/
theorem C7_witness :
    (Fetch envOk "ws" "https://example.com/r.git" "main" "md" worldEmpty).2.scratchRemotes =
      [{ name := "origin", urls := ["https://example.com/r.git"] }] ∧
    (Fetch envOk "ws" "https://example.com/r.git" "main" "md" worldEmpty).2.fetchCalls =
      worldEmpty.fetchCalls ++ [{ refSpecs := ["refs/*:refs/*"], auth := .anonymous }] :=
  C7_fetch_all_refs_from_sole_origin_remote envOk "ws"
    "https://example.com/r.git" "main" "md" worldEmpty .anonymous
    "/tmp/git-clone-123" .defaultClient rfl rfl rfl rfl rfl

/-- C8: once the temporary scratch directory is created it survives every
exit path of Fetch — the final world still lists it, deleted by nothing,
whether on success or on any error return. -/
theorem C8_tmp_dir_never_deleted
    (env : FetchEnv) (dir gitURL gitRevision metadataDir : String) (w : World)
    (auth : AuthMethod) (tmpDir : String)
    (hA : env.resolveAuth = .ok auth) (hB : env.mkdirTemp = .ok tmpDir) :
    (Fetch env dir gitURL gitRevision metadataDir w).2.tmpDirs =
      tmpDir :: w.tmpDirs := by
  cases hC : env.plainInitErr with
  | some e => simp [Fetch, hA, hB, hC]
  | none =>
  cases hD : env.createRemoteErr with
  | some e => simp [Fetch, hA, hB, hC, hD]
  | none =>
  cases hE : getHttpsTransport env with
  | error e => simp [Fetch, hA, hB, hC, hD, hE]
  | ok tr =>
  cases hF : env.fetchErr with
  | some e =>
    by_cases he : e = GoError.errAuthenticationRequired
    · simp [Fetch, hA, hB, hC, hD, hE, hF, he]
    · simp [Fetch, hA, hB, hC, hD, hE, hF, he]
  | none =>
  cases hG : env.worktreeErr with
  | some e => simp [Fetch, hA, hB, hC, hD, hE, hF, hG]
  | none =>
  cases hH : env.resolveRevisionRes with
  | error e => simp [Fetch, hA, hB, hC, hD, hE, hF, hG, hH]
  | ok hash =>
  cases hI : env.checkoutErr with
  | some e => simp [Fetch, hA, hB, hC, hD, hE, hF, hG, hH, hI]
  | none =>
  cases hJ : env.removeAllErr with
  | some e => simp [Fetch, hA, hB, hC, hD, hE, hF, hG, hH, hI, hJ]
  | none =>
  cases hK : env.copyDirErr with
  | some e => simp [Fetch, hA, hB, hC, hD, hE, hF, hG, hH, hI, hJ, hK]
  | none =>
  cases hL : env.createMetadataErr with
  | some e => simp [Fetch, hA, hB, hC, hD, hE, hF, hG, hH, hI, hJ, hK, hL]
  | none =>
  cases hM : env.encodeErr with
  | some e => simp [Fetch, hA, hB, hC, hD, hE, hF, hG, hH, hI, hJ, hK, hL, hM]
  | none => simp [Fetch, hA, hB, hC, hD, hE, hF, hG, hH, hI, hJ, hK, hL, hM]

/-- C8 witness: the scratch directory persists through a failing fetch and
through a fully successful run alike; here, the failing fetch. -/
theorem C8_witness :
    (Fetch envFetchDNS "ws" "https://example.com/r.git" "main" "md" worldEmpty).2.tmpDirs =
      "/tmp/git-clone-123" :: worldEmpty.tmpDirs :=
  C8_tmp_dir_never_deleted envFetchDNS "ws" "https://example.com/r.git"
    "main" "md" worldEmpty .anonymous "/tmp/git-clone-123" rfl rfl

/-- C9: when every stage through the copy succeeds but creating or
encoding the metadata file fails, Fetch returns an error while the
destination already holds the freshly copied scratch tree, and the
metadata file is either the stale pre-call one or a truncated empty one —
an error return does not mean the destination was left unchanged. -/
theorem C9_metadata_failure_after_dest_mutation
    (env : FetchEnv) (dir gitURL gitRevision metadataDir : String) (w : World)
    (auth : AuthMethod) (tmpDir : String) (tr : Transport) (hash : String)
    (hA : env.resolveAuth = .ok auth) (hB : env.mkdirTemp = .ok tmpDir)
    (hC : env.plainInitErr = none) (hD : env.createRemoteErr = none)
    (hE : getHttpsTransport env = .ok tr) (hF : env.fetchErr = none)
    (hG : env.worktreeErr = none) (hH : env.resolveRevisionRes = .ok hash)
    (hI : env.checkoutErr = none) (hJ : env.removeAllErr = none)
    (hK : env.copyDirErr = none)
    (hMeta : env.createMetadataErr.isSome ∨
             (env.createMetadataErr = none ∧ env.encodeErr.isSome)) :
    isErr (Fetch env dir gitURL gitRevision metadataDir w).1 = true ∧
    (Fetch env dir gitURL gitRevision metadataDir w).2.dest =
      some (FSEntry.dir 448 ((".git", env.gitDir) :: env.worktreeAt hash)) ∧
    ((Fetch env dir gitURL gitRevision metadataDir w).2.metadataFile = w.metadataFile ∨
     (Fetch env dir gitURL gitRevision metadataDir w).2.metadataFile = some []) := by
  rcases hMeta with hMeta | ⟨hL, hMeta⟩
  · obtain ⟨e, hL⟩ := Option.isSome_iff_exists.mp hMeta
    simp [Fetch, hA, hB, hC, hD, hE, hF, hG, hH, hI, hJ, hK, hL, isErr, copyDir_id]
  · obtain ⟨e, hM⟩ := Option.isSome_iff_exists.mp hMeta
    simp [Fetch, hA, hB, hC, hD, hE, hF, hG, hH, hI, hJ, hK, hL, hM, isErr, copyDir_id]

/-- C9 witness: with os.Create of the metadata file failing over a
workspace that held an old tree, Fetch errors yet the destination now
holds the new scratch tree and the stale metadata file is untouched. -/
theorem C9_witness :
    envMetaCreateFail.createMetadataErr.isSome ∧
    isErr (Fetch envMetaCreateFail "ws" "https://example.com/r.git" "main" "md" worldPrior).1 = true ∧
    (Fetch envMetaCreateFail "ws" "https://example.com/r.git" "main" "md" worldPrior).2.dest =
      some (FSEntry.dir 448 ((".git", envMetaCreateFail.gitDir) ::
        envMetaCreateFail.worktreeAt "a94a8fe5ccb19ba61c4c0873d391e987982fbbd3")) ∧
    ((Fetch envMetaCreateFail "ws" "https://example.com/r.git" "main" "md" worldPrior).2.metadataFile =
        worldPrior.metadataFile ∨
     (Fetch envMetaCreateFail "ws" "https://example.com/r.git" "main" "md" worldPrior).2.metadataFile =
        some []) :=
  ⟨by decide,
   C9_metadata_failure_after_dest_mutation envMetaCreateFail "ws"
     "https://example.com/r.git" "main" "md" worldPrior .anonymous
     "/tmp/git-clone-123" .defaultClient
     "a94a8fe5ccb19ba61c4c0873d391e987982fbbd3"
     rfl rfl rfl rfl rfl rfl rfl rfl rfl rfl rfl (Or.inl (by decide))⟩

/-- C10: on a fully successful Fetch the metadata file afterwards holds
exactly the freshly encoded descriptor, whatever file was there before:
os.Create truncates any pre-existing project-metadata.toml, so an earlier
descriptor is silently overwritten, never appended to and never an
error. -/
theorem C10_metadata_file_overwritten
    (env : FetchEnv) (dir gitURL gitRevision metadataDir : String) (w : World)
    (auth : AuthMethod) (tmpDir : String) (tr : Transport) (hash : String)
    (hA : env.resolveAuth = .ok auth) (hB : env.mkdirTemp = .ok tmpDir)
    (hC : env.plainInitErr = none) (hD : env.createRemoteErr = none)
    (hE : getHttpsTransport env = .ok tr) (hF : env.fetchErr = none)
    (hG : env.worktreeErr = none) (hH : env.resolveRevisionRes = .ok hash)
    (hI : env.checkoutErr = none) (hJ : env.removeAllErr = none)
    (hK : env.copyDirErr = none) (hL : env.createMetadataErr = none)
    (hM : env.encodeErr = none) :
    (Fetch env dir gitURL gitRevision metadataDir w).1 = .ok () ∧
    (Fetch env dir gitURL gitRevision metadataDir w).2.metadataFile =
      some (encodeProject
        { Source := { type := "git",
                      Metadata := { Repository := gitURL, Revision := gitRevision },
                      Version := { Commit := hash } } }) := by
  simp [Fetch, hA, hB, hC, hD, hE, hF, hG, hH, hI, hJ, hK, hL, hM]

/-- C10 witness: over a world whose metadata file held a stale descriptor,
a successful Fetch leaves exactly the new descriptor. -/
theorem C10_witness :
    worldPrior.metadataFile = some [("source.type", "blob")] ∧
    (Fetch envOk "ws" "https://example.com/r.git" "main" "md" worldPrior).1 = .ok () ∧
    (Fetch envOk "ws" "https://example.com/r.git" "main" "md" worldPrior).2.metadataFile =
      some (encodeProject
        { Source := { type := "git",
                      Metadata := { Repository := "https://example.com/r.git",
                                    Revision := "main" },
                      Version := { Commit := "a94a8fe5ccb19ba61c4c0873d391e987982fbbd3" } } }) :=
  ⟨rfl,
   C10_metadata_file_overwritten envOk "ws" "https://example.com/r.git"
     "main" "md" worldPrior .anonymous "/tmp/git-clone-123" .defaultClient
     "a94a8fe5ccb19ba61c4c0873d391e987982fbbd3"
     rfl rfl rfl rfl rfl rfl rfl rfl rfl rfl rfl rfl rfl⟩

end KpackGit
